import Mathlib

/-!
Verification of the dnsmng DNS-profile manager.

The embedding models the program as pure functions over an explicit
filesystem state.  The filesystem state carries the two files the program
mutates: the resolver file (`/etc/resolv.conf`) and the last-selection
record (`/var/lib/dnsmng/last_dns`).  I/O success of each write is made
explicit through boolean flags; a read of the last-selection file succeeds
exactly when the file is present.
-/

namespace Dnsmng

/-- State of the two files the program touches: the resolver file content
and the last-selection record (`none` when the file is absent, in which
case `os.ReadFile` fails). -/
structure FS where
  resolvConf : String
  lastDNS : Option String
deriving Repr, DecidableEq

/-- The loaded YAML config: the `dns` mapping from profile name to the
ordered list of nameserver IP strings. -/
structure Config where
  DNS : List (String × List String)
deriving Repr, DecidableEq

/-- Go map lookup `config.DNS[name]` with its `exists` flag folded into
`Option`. -/
def Config.find (c : Config) (name : String) : Option (List String) :=
  c.DNS.lookup name

/-- The content built by `setDNS`'s loop: a `strings.Builder` that appends
`fmt.Sprintf("nameserver %s\n", ip)` for each address in order. -/
def setDNSContent (dnsIPs : List String) : String :=
  dnsIPs.foldl (fun acc ip => acc ++ ("nameserver " ++ ip ++ "\n")) ""

/-- `setDNS`: overwrite `/etc/resolv.conf` with the serialized addresses.
`ok` records whether `os.WriteFile` succeeds; on failure the state is
unchanged and the error is returned. -/
def setDNS (dnsIPs : List String) (fs : FS) (ok : Bool) : Except Unit FS :=
  if ok then .ok { fs with resolvConf := setDNSContent dnsIPs } else .error ()

/-- `readLastDNS`: read the raw bytes of the last-selection file; fails
when the file is absent. -/
def readLastDNS (fs : FS) : Except Unit String :=
  match fs.lastDNS with
  | some s => .ok s
  | none => .error ()

/-- `saveLastDNS`: create the parent directory and overwrite the record
file with the raw profile name; `ok` records whether `os.MkdirAll` and
`os.WriteFile` both succeed. -/
def saveLastDNS (name : String) (fs : FS) (ok : Bool) : Except Unit FS :=
  if ok then .ok { fs with lastDNS := some name } else .error ()

/-- Success of the two startup writes: the `setDNS` call and the
`saveLastDNS` call made by `main`. -/
structure WriteOracle where
  setOk : Bool
  saveOk : Bool
deriving Repr, DecidableEq

/-- Outcome of `main` up to the call of `watchResolvConf`: either a fatal
non-zero exit (`log.Fatalf` / `os.Exit(1)`) with the file state at that
moment, or entry into the watch loop with the address list handed to it. -/
inductive MainResult where
  | fatal (fs : FS)
  | watch (dnsIPs : List String) (fs : FS)
deriving Repr, DecidableEq

/-- The effective profile name resolved in the no-`--set` branch:
`readLastDNS`, defaulting to `"local"` when the read fails or yields the
empty string. -/
def effectiveName (fs : FS) : String :=
  match readLastDNS fs with
  | .ok s => if s = "" then "local" else s
  | .error _ => "local"

/-- The re-derivation at the end of `main` of the list handed to
`watchResolvConf`: `config.DNS[*domain]`, and when that key is absent,
`readLastDNS` with its error ignored (yielding `""` on failure) followed by
`config.DNS[lastDNS]`, whose zero value on a missing key is the nil list. -/
def mainWatchList (domain : String) (config : Config) (fs : FS) : List String :=
  match config.find domain with
  | some ips => ips
  | none =>
    let lastDNS := match readLastDNS fs with
      | .ok s => s
      | .error _ => ""
    (config.find lastDNS).getD []

/-- `main` after a successful config load: the `--set` branch looks the
profile up (fatal when absent), applies it (fatal on write error) and
persists the name (fatal on error); the no-`--set` branch resolves the
effective name, looks it up (fatal when absent) and applies it (fatal on
write error).  Both branches end by re-deriving the watch list and calling
`watchResolvConf`. -/
def mainGo (domain : String) (config : Config) (fs : FS) (o : WriteOracle) :
    MainResult :=
  if domain ≠ "" then
    match config.find domain with
    | none => .fatal fs
    | some dnsIPs =>
      match setDNS dnsIPs fs o.setOk with
      | .error _ => .fatal fs
      | .ok fs1 =>
        match saveLastDNS domain fs1 o.saveOk with
        | .error _ => .fatal fs1
        | .ok fs2 => .watch (mainWatchList domain config fs2) fs2
  else
    match config.find (effectiveName fs) with
    | none => .fatal fs
    | some dnsIPs =>
      match setDNS dnsIPs fs o.setOk with
      | .error _ => .fatal fs
      | .ok fs1 => .watch (mainWatchList domain config fs1) fs1

/-- The serialization the spec describes: one `nameserver <ip>` line per
address, each terminated by a newline, concatenated in address order. -/
def specResolvContent : List String → String
  | [] => ""
  | ip :: rest => "nameserver " ++ ip ++ "\n" ++ specResolvContent rest

theorem setDNSContent_foldl (ips : List String) (acc : String) :
    ips.foldl (fun a ip => a ++ ("nameserver " ++ ip ++ "\n")) acc
      = acc ++ specResolvContent ips := by
  induction ips generalizing acc with
  | nil => simp [specResolvContent]
  | cons ip tl ih =>
      simp only [List.foldl_cons, specResolvContent, ih]
      rw [String.append_assoc, String.append_assoc]

theorem setDNSContent_eq_spec (ips : List String) :
    setDNSContent ips = specResolvContent ips := by
  have h := setDNSContent_foldl ips ""
  simpa [setDNSContent] using h

/-- The `fsnotify.Write` bit of the event-operation bitmask. -/
def fsnotifyWrite : Nat := 2

/-- An fsnotify event, carrying its operation bitmask. -/
structure FsEvent where
  op : Nat
deriving Repr, DecidableEq

/-- One observation of the goroutine's two-channel select: a delivered
event, a closed receive on the event channel (`ok = false`), a delivered
subscription error, or a closed receive on the error channel. -/
inductive ChanObs where
  | event (e : FsEvent)
  | eventsClosed
  | errMsg
  | errsClosed
deriving Repr, DecidableEq

/-- Open/closed status of the watcher's two channels. -/
structure ChanStatus where
  eventsOpen : Bool
  errsOpen : Bool
deriving Repr, DecidableEq

/-- Which observations the select can yield in a given channel status: a
message needs its channel open, while a closed channel is always ready and
yields the closed receive. -/
def obsPossible (st : ChanStatus) : ChanObs → Bool
  | .event _ => st.eventsOpen
  | .eventsClosed => !st.eventsOpen
  | .errMsg => st.errsOpen
  | .errsClosed => !st.errsOpen

/-- Outcome of one iteration of the goroutine's loop: whether it returned,
the resulting file state, and how many `setDNS` restoration calls it made. -/
structure StepResult where
  exited : Bool
  fs : FS
  writes : Nat
deriving Repr, DecidableEq

/-- One iteration of `watchResolvConf`'s goroutine: a closed receive on
either channel returns; an event whose op has the `Write` bit calls
`setDNS` (a failure only logs); any other event or a subscription error
only logs. -/
def watchStep (dnsIPs : List String) (fs : FS) (obs : ChanObs)
    (writeOk : Bool) : StepResult :=
  match obs with
  | .event e =>
    if Nat.land e.op fsnotifyWrite = fsnotifyWrite then
      match setDNS dnsIPs fs writeOk with
      | .ok fs1 => ⟨false, fs1, 1⟩
      | .error _ => ⟨false, fs, 1⟩
    else ⟨false, fs, 0⟩
  | .eventsClosed => ⟨true, fs, 0⟩
  | .errMsg => ⟨false, fs, 0⟩
  | .errsClosed => ⟨true, fs, 0⟩

/-- A config holding only the `local` profile. -/
def cfgLocal : Config := ⟨[("local", ["127.0.0.1"])]⟩

/-- Initial file state: empty resolver file, no last-selection record. -/
def fs0 : FS := ⟨"", none⟩

/-- C1: for every profile present in the loaded config, applying it via
`setDNS` overwrites the resolver file so that its content is exactly the
concatenation, in the profile's address order, of one `nameserver <ip>`
line per address, each terminated by a newline. -/
theorem setDNS_writes_spec_content (config : Config) (name : String)
    (ips : List String) (fs : FS) (h : config.find name = some ips) :
    setDNS ips fs true = .ok { fs with resolvConf := specResolvContent ips } := by
  simp [setDNS, setDNSContent_eq_spec]

theorem setDNS_writes_spec_content_witness :
    setDNS ["1.1.1.1", "1.0.0.1"] fs0 true
      = .ok { fs0 with resolvConf := "nameserver 1.1.1.1\nnameserver 1.0.0.1\n" } := by
  rw [setDNS_writes_spec_content ⟨[("cloudflare", ["1.1.1.1", "1.0.0.1"])]⟩
    "cloudflare" ["1.1.1.1", "1.0.0.1"] fs0 (by decide)]
  rfl

/-- C2 (code bug): with no explicit selection and no last-selection record,
startup writes the `local` profile's addresses to the resolver file, yet
the watch loop is handed the empty address list — not the list that was
just written. -/
theorem main_watch_list_mismatch :
    mainGo "" cfgLocal fs0 ⟨true, true⟩
      = .watch [] ⟨setDNSContent ["127.0.0.1"], none⟩ ∧
    setDNSContent ["127.0.0.1"] = "nameserver 127.0.0.1\n" ∧
    ([] : List String) ≠ ["127.0.0.1"] := by decide

/-- C3: a non-empty `--set` name absent from the loaded config is a fatal
exit before any write: the resolver file and the last-selection file are
unchanged. -/
theorem explicit_missing_profile_fatal (domain : String) (config : Config)
    (fs : FS) (o : WriteOracle) (hd : domain ≠ "")
    (h : config.find domain = none) :
    mainGo domain config fs o = .fatal fs := by
  simp [mainGo, hd, h]

theorem explicit_missing_profile_fatal_witness :
    mainGo "google" cfgLocal fs0 ⟨true, true⟩ = .fatal fs0 :=
  explicit_missing_profile_fatal "google" cfgLocal fs0 ⟨true, true⟩
    (by decide) (by decide)

/-- C4: in the no-`--set` branch, a failed or empty last-selection read
resolves the effective name to the built-in default `"local"`, and a
resolved name missing from the config is a fatal exit with no further
fallback and no writes. -/
theorem implicit_default_and_missing_fatal (config : Config) (fs : FS)
    (o : WriteOracle) :
    ((fs.lastDNS = none ∨ fs.lastDNS = some "") → effectiveName fs = "local") ∧
    (config.find (effectiveName fs) = none → mainGo "" config fs o = .fatal fs) := by
  constructor
  · rintro (h | h) <;> simp [effectiveName, readLastDNS, h]
  · intro h
    simp [mainGo, h]

theorem implicit_default_and_missing_fatal_witness :
    effectiveName fs0 = "local" ∧
    mainGo "" (⟨[]⟩ : Config) fs0 ⟨true, true⟩ = .fatal fs0 :=
  ⟨(implicit_default_and_missing_fatal ⟨[]⟩ fs0 ⟨true, true⟩).1 (Or.inl rfl),
   (implicit_default_and_missing_fatal ⟨[]⟩ fs0 ⟨true, true⟩).2 (by decide)⟩

/-- C5: a `saveLastDNS` failure after an explicit `--set` is fatal (the
resolver file having already been rewritten), while in the implicit branch
a `readLastDNS` failure is non-fatal: the default profile is assumed and
the run reaches the watch loop. -/
theorem persistence_error_fatality (domain : String) (config : Config)
    (fs : FS) (ips : List String) :
    (domain ≠ "" → config.find domain = some ips →
      mainGo domain config fs ⟨true, false⟩
        = .fatal { fs with resolvConf := setDNSContent ips }) ∧
    (fs.lastDNS = none → config.find "local" = some ips →
      mainGo "" config fs ⟨true, true⟩
        = .watch (mainWatchList "" config { fs with resolvConf := setDNSContent ips })
            { fs with resolvConf := setDNSContent ips }) := by
  constructor
  · intro hd h
    simp [mainGo, hd, h, setDNS, saveLastDNS]
  · intro hlast h
    have heff : effectiveName fs = "local" := by
      simp [effectiveName, readLastDNS, hlast]
    simp [mainGo, heff, h, setDNS]

theorem persistence_error_fatality_witness :
    mainGo "local" cfgLocal fs0 ⟨true, false⟩
      = .fatal { fs0 with resolvConf := setDNSContent ["127.0.0.1"] } ∧
    mainGo "" cfgLocal fs0 ⟨true, true⟩
      = .watch (mainWatchList "" cfgLocal { fs0 with resolvConf := setDNSContent ["127.0.0.1"] })
          { fs0 with resolvConf := setDNSContent ["127.0.0.1"] } :=
  ⟨(persistence_error_fatality "local" cfgLocal fs0 ["127.0.0.1"]).1
      (by decide) (by decide),
   (persistence_error_fatality "" cfgLocal fs0 ["127.0.0.1"]).2
      rfl (by decide)⟩

/-- C6: every event carrying the `Write` bit triggers exactly one `setDNS`
restoration call, unconditionally in the file's current content, and a
failing restoration write does not terminate the loop. -/
theorem write_event_always_restores (dnsIPs : List String) (fs : FS)
    (e : FsEvent) (ok : Bool)
    (hw : Nat.land e.op fsnotifyWrite = fsnotifyWrite) :
    watchStep dnsIPs fs (.event e) ok
      = ⟨false, if ok then { fs with resolvConf := setDNSContent dnsIPs } else fs, 1⟩ := by
  cases ok <;> simp [watchStep, hw, setDNS]

theorem write_event_always_restores_witness :
    watchStep ["127.0.0.1"] ⟨"nameserver 127.0.0.1\n", none⟩ (.event ⟨2⟩) false
      = ⟨false, ⟨"nameserver 127.0.0.1\n", none⟩, 1⟩ := by
  rw [write_event_always_restores ["127.0.0.1"] ⟨"nameserver 127.0.0.1\n", none⟩
    ⟨2⟩ false (by decide)]
  rfl

/-- C7 counterexample: with the event channel closed and the error channel
still open, the closed receive on the event channel is a possible select
outcome and the goroutine exits — refuting that it exits only when both
channels are closed. -/
theorem exit_with_error_channel_open :
    obsPossible ⟨false, true⟩ .eventsClosed = true ∧
    (ChanStatus.mk false true).errsOpen = true ∧
    (watchStep ["127.0.0.1"] fs0 .eventsClosed true).exited = true := by decide

/-- C7 (amended): the goroutine exits exactly when it receives a
closed-channel signal on either channel — the event channel or the error
channel — and keeps processing on every delivered message. -/
theorem exits_iff_channel_closed (dnsIPs : List String) (fs : FS)
    (obs : ChanObs) (ok : Bool) :
    (watchStep dnsIPs fs obs ok).exited = true
      ↔ (obs = .eventsClosed ∨ obs = .errsClosed) := by
  cases obs <;> simp [watchStep, setDNS] <;> split <;> cases ok <;> simp

/-- C8: saving a selection name and then loading it returns the same name,
for any non-empty name free of control characters, when the I/O succeeds. -/
theorem save_then_read_roundtrip (name : String) (fs : FS)
    (hne : name ≠ "") (hctl : ∀ c ∈ name.data, 32 ≤ c.toNat) :
    saveLastDNS name fs true = .ok { fs with lastDNS := some name } ∧
    readLastDNS { fs with lastDNS := some name } = .ok name :=
  ⟨rfl, rfl⟩

theorem save_then_read_roundtrip_witness :
    saveLastDNS "cloudflare" fs0 true = .ok { fs0 with lastDNS := some "cloudflare" } ∧
    readLastDNS { fs0 with lastDNS := some "cloudflare" } = .ok "cloudflare" :=
  save_then_read_roundtrip "cloudflare" fs0 (by decide) (by decide)

/-- C9: applying `setDNS` twice with the same address list succeeds and
leaves byte-identical resolver content both times — the serialized output
depends only on the address list. -/
theorem setDNS_idempotent (ips : List String) (fs : FS) :
    setDNS ips fs true = .ok { fs with resolvConf := setDNSContent ips } ∧
    setDNS ips { fs with resolvConf := setDNSContent ips } true
      = .ok { fs with resolvConf := setDNSContent ips } :=
  ⟨rfl, rfl⟩

/-- C10: `setDNS` on the empty address list succeeds when the write
succeeds and truncates the resolver file to zero bytes. -/
theorem setDNS_empty_truncates (fs : FS) :
    setDNS [] fs true = .ok { fs with resolvConf := "" } :=
  rfl

end Dnsmng
